import Mathlib

/-!
Shallow embedding of the stake-o-matic control loop (src/src/main.rs) used to verify
the natural-language specification.  Validator identities (Rust `Pubkey` / base58
strings) are modelled as natural numbers, slots (`u64`) as naturals, `f64` stake
percentages as rationals, and the formatted memo `String`s as a tagged `Memo` type
that records the memo kind together with the data interpolated into the string.
-/

namespace StakeOMatic

/-- Kinds of operator-facing memo strings attached to per-validator stake decisions in
`main` (src/src/main.rs lines 896-953) and by `InfrastructureConcentrationAffects::memo`
(lines 59-74).  The Rust code builds formatted `String`s; each constructor records the
memo's kind and the data interpolated into it (the infrastructure memos also interpolate
`config.max_infrastructure_concentration`, which is omitted here as it is fixed by the
configuration). -/
inductive Memo
  | infraDestake (validator_id : ℕ) (concentration : ℚ)
  | infraWarn (validator_id : ℕ) (concentration : ℚ)
  | commissionTooHigh (validator_id : ℕ) (commission : ℕ)
  | oldRelease (validator_id : ℕ)
  | delinquent (validator_id : ℕ)
  | qualityProducer (validator_id : ℕ) (epoch : ℕ)
  | poorProducer (validator_id : ℕ) (epoch : ℕ)
  | currentValidator (validator_id : ℕ)
deriving DecidableEq

/-- Result of resolving the infrastructure-concentration policy for one validator
(src/src/main.rs lines 46-49, `InfrastructureConcentrationAffectKind`). -/
inductive InfrastructureConcentrationAffectKind
  | Destake (memo : Memo)
  | Warn (memo : Memo)
deriving DecidableEq

/-- Policy for validators whose infrastructure concentration is too high
(src/src/main.rs lines 51-56, `InfrastructureConcentrationAffects`). -/
inductive InfrastructureConcentrationAffects
  | WarnAll
  | DestakeListed (list : Finset ℕ)
  | DestakeAll
deriving DecidableEq

/-- Configuration values read by the embedded functions (src/src/main.rs lines 160-210,
struct `Config`).  Fields not read by the decision pipeline (RPC url, keypair, cache
path, dry-run flag, `min_release_version`) are omitted; the `f64` concentration ceiling
is modelled as a rational. -/
structure Config where
  quality_block_producer_percentage : ℕ
  delinquent_grace_slot_distance : ℕ
  max_poor_block_producer_percentage : ℕ
  max_commission : ℕ
  max_old_release_version_percentage : ℕ
  max_infrastructure_concentration : ℚ
  infrastructure_concentration_affects : InfrastructureConcentrationAffects
  use_cluster_average_skip_rate : Bool
  bad_cluster_average_skip_rate : ℕ
deriving DecidableEq

/-- Resolution of the infrastructure-concentration policy for one validator
(src/src/main.rs lines 75-108, `InfrastructureConcentrationAffects::memo`).  The
`config` argument is interpolated into the memo strings in the source. -/
def InfrastructureConcentrationAffects.memo (self : InfrastructureConcentrationAffects)
    (validator_id : ℕ) (concentration : ℚ) (config : Config) :
    InfrastructureConcentrationAffectKind :=
  match self with
  | .DestakeAll => .Destake (.infraDestake validator_id concentration)
  | .WarnAll => .Warn (.infraWarn validator_id concentration)
  | .DestakeListed list =>
      if validator_id ∈ list then .Destake (.infraDestake validator_id concentration)
      else .Warn (.infraWarn validator_id concentration)

/-- Number of assigned slots of one validator that are present in the confirmed set:
the `validator_blocks` counter of the inner loop of `classify_producers`
(src/src/main.rs lines 610-620). -/
def validator_blocks (first_slot_in_epoch : ℕ) (confirmed_blocks : Finset ℕ)
    (relative_slots : List ℕ) : ℕ :=
  (relative_slots.filter fun relative_slot =>
    first_slot_in_epoch + relative_slot ∈ confirmed_blocks).length

/-- Total number of assigned slots over the whole leader schedule: the `total_slots`
counter of `classify_producers` (src/src/main.rs lines 608-615). -/
def total_slots (leader_schedule : List (ℕ × List ℕ)) : ℕ :=
  (leader_schedule.map fun p => p.2.length).sum

/-- Total number of confirmed blocks over the whole leader schedule: the `total_blocks`
counter of `classify_producers` (src/src/main.rs lines 607-618). -/
def total_blocks (first_slot_in_epoch : ℕ) (confirmed_blocks : Finset ℕ)
    (leader_schedule : List (ℕ × List ℕ)) : ℕ :=
  (leader_schedule.map fun p => validator_blocks first_slot_in_epoch confirmed_blocks p.2).sum

/-- One step of the `blocks_and_slots` accumulation of `classify_producers`
(src/src/main.rs lines 622-626): `entry(id).or_insert((0,0)); e.0 += blocks;
e.1 += slots` on a `HashMap` modelled as an association list. -/
def addEntry (m : List (ℕ × ℕ × ℕ)) (validator_identity blocks slots : ℕ) :
    List (ℕ × ℕ × ℕ) :=
  match m with
  | [] => [(validator_identity, blocks, slots)]
  | e :: rest =>
      if e.1 = validator_identity then (e.1, e.2.1 + blocks, e.2.2 + slots) :: rest
      else e :: addEntry rest validator_identity blocks slots

/-- The `blocks_and_slots` map of `classify_producers` (src/src/main.rs lines 605-627):
per-validator `(identity, blocks, slots)` entries, restricted to validators with
`validator_slots > 0`. -/
def blocks_and_slots (first_slot_in_epoch : ℕ) (confirmed_blocks : Finset ℕ)
    (leader_schedule : List (ℕ × List ℕ)) : List (ℕ × ℕ × ℕ) :=
  leader_schedule.foldl
    (fun m p =>
      if 0 < p.2.length then
        addEntry m p.1 (validator_blocks first_slot_in_epoch confirmed_blocks p.2) p.2.length
      else m)
    []

/-- Cluster-average skip rate computed by `classify_producers` (src/src/main.rs line
628): `100 - total_blocks * 100 / total_slots`.  Meaningful only when
`total_slots ≠ 0`; at zero total slots the Rust code panics (see
`classify_producers`). -/
def cluster_average_skip_rate_calc (first_slot_in_epoch : ℕ) (confirmed_blocks : Finset ℕ)
    (leader_schedule : List (ℕ × List ℕ)) : ℕ :=
  100 - total_blocks first_slot_in_epoch confirmed_blocks leader_schedule * 100
    / total_slots leader_schedule

/-- Poor-producer test of `classify_producers` (src/src/main.rs lines 630-637):
`skip_rate = 100 - blocks * 100 / slots`, the floor is the cluster average when
`use_cluster_average_skip_rate` is configured and `0` otherwise, and the validator is
poor when `skip_rate.saturating_sub(quality_block_producer_percentage) >
skip_rate_floor`.  Natural-number subtraction is exactly `saturating_sub`. -/
def is_poor (config : Config) (cluster_average_skip_rate blocks slots : ℕ) : Bool :=
  let skip_rate := 100 - blocks * 100 / slots
  let skip_rate_floor :=
    if config.use_cluster_average_skip_rate then cluster_average_skip_rate else 0
  skip_rate - config.quality_block_producer_percentage > skip_rate_floor

/-- Failure of `classify_producers`.  `panicDivByZero` models the Rust panic raised by
the integer division `total_blocks * 100 / total_slots` (src/src/main.rs line 628) when
`total_slots` is zero: Rust integer division by zero panics, it does not return an
`Err`. -/
inductive ClassifyError
  | panicDivByZero
deriving DecidableEq

/-- The `ClassifyResult` tuple of src/src/main.rs line 595: quality set, poor set,
cluster-average skip rate, and the too-many-poor-block-producers flag, with named
fields. -/
structure ClassifyResult where
  quality_block_producers : Finset ℕ
  poor_block_producers : Finset ℕ
  cluster_average_skip_rate : ℕ
  too_many_poor_block_producers : Bool
deriving DecidableEq

/-- The classifier `classify_producers` (src/src/main.rs lines 597-671).  The leader
schedule (a Rust `HashMap<String, Vec<usize>>`) is an association list whose keys are
unique in the source; the confirmed-block set is a finite set of absolute slots.  The
division by `total_slots` at line 628 is guarded here by the explicit
`panicDivByZero` branch because the Rust code panics there when `total_slots = 0`; the
second division (line 650, by `quality.card + poor.card`) needs no guard because its
divisor is positive whenever `total_slots ≠ 0` (some validator then has a nonzero slot
count and lands in one of the two sets), so Lean's total `/` agrees with Rust on every
reachable input. -/
def classify_producers (first_slot_in_epoch : ℕ) (confirmed_blocks : Finset ℕ)
    (leader_schedule : List (ℕ × List ℕ)) (config : Config) :
    Except ClassifyError ClassifyResult :=
  if total_slots leader_schedule = 0 then Except.error ClassifyError.panicDivByZero
  else
    let cluster_average_skip_rate :=
      cluster_average_skip_rate_calc first_slot_in_epoch confirmed_blocks leader_schedule
    let bas := blocks_and_slots first_slot_in_epoch confirmed_blocks leader_schedule
    let poor_block_producers :=
      ((bas.filter fun e => is_poor config cluster_average_skip_rate e.2.1 e.2.2).map
        Prod.fst).toFinset
    let quality_block_producers :=
      ((bas.filter fun e => !is_poor config cluster_average_skip_rate e.2.1 e.2.2).map
        Prod.fst).toFinset
    let poor_block_producer_percentage :=
      poor_block_producers.card * 100
        / (quality_block_producers.card + poor_block_producers.card)
    Except.ok
      ⟨quality_block_producers, poor_block_producers, cluster_average_skip_rate,
        poor_block_producer_percentage > config.max_poor_block_producer_percentage⟩

instance {α β : Type} [DecidableEq α] [DecidableEq β] : DecidableEq (Except α β) := fun a b =>
  match a, b with
  | .ok x, .ok y => if h : x = y then .isTrue (by rw [h]) else .isFalse (by simp [h])
  | .error x, .error y => if h : x = y then .isTrue (by rw [h]) else .isFalse (by simp [h])
  | .ok _, .error _ => .isFalse (by simp)
  | .error _, .ok _ => .isFalse (by simp)

/-- Identities assigned at least one slot by the leader schedule. -/
def ids_with_assigned_slots (leader_schedule : List (ℕ × List ℕ)) : Finset ℕ :=
  ((leader_schedule.filter fun p => 0 < p.2.length).map Prod.fst).toFinset

example :
    classify_producers 0 ({0, 1} : Finset ℕ) [(1, [0, 1]), (2, [2, 3])]
      ⟨10, 21600, 20, 100, 10, 100, .WarnAll, false, 50⟩
      = Except.ok ⟨{1}, {2}, 50, true⟩ := by decide

/-- Two members of a list with forbidden duplicate keys and equal keys are equal. -/
lemma eq_of_nodup_keys {α κ : Type} (key : α → κ) {l : List α}
    (h : (l.map key).Nodup) {p q : α} (hp : p ∈ l) (hq : q ∈ l)
    (hk : key p = key q) : p = q := by
  induction l with
  | nil => cases hp
  | cons x rest ih =>
      simp only [List.map_cons, List.nodup_cons] at h
      rcases List.mem_cons.mp hp with hp1 | hp1 <;>
        rcases List.mem_cons.mp hq with hq1 | hq1
      · rw [hp1, hq1]
      · exact absurd (by rw [← hp1, hk]; exact List.mem_map_of_mem key hq1) h.1
      · exact absurd (by rw [← hq1, ← hk]; exact List.mem_map_of_mem key hp1) h.1
      · exact ih h.2 hp1 hq1

/-- Inserting a fresh key into the `blocks_and_slots` association list appends it. -/
lemma addEntry_of_not_mem {m : List (ℕ × ℕ × ℕ)} {id b s : ℕ}
    (h : id ∉ m.map Prod.fst) : addEntry m id b s = m ++ [(id, b, s)] := by
  induction m with
  | nil => rfl
  | cons e rest ih =>
      simp only [List.map_cons, List.mem_cons, not_or] at h
      have h1 : ¬e.1 = id := fun hc => h.1 hc.symm
      simp [addEntry, h1, ih h.2]

/-- The entry that `classify_producers` records for one validator with at least one
assigned slot. -/
def entry_of (first_slot_in_epoch : ℕ) (confirmed_blocks : Finset ℕ) (p : ℕ × List ℕ) :
    ℕ × ℕ × ℕ :=
  (p.1, validator_blocks first_slot_in_epoch confirmed_blocks p.2, p.2.length)

lemma blocks_and_slots_go (first : ℕ) (confirmed : Finset ℕ) :
    ∀ (schedule : List (ℕ × List ℕ)) (acc : List (ℕ × ℕ × ℕ)),
      (schedule.map Prod.fst).Nodup →
      (∀ id ∈ schedule.map Prod.fst, id ∉ acc.map Prod.fst) →
      schedule.foldl
        (fun m p =>
          if 0 < p.2.length then
            addEntry m p.1 (validator_blocks first confirmed p.2) p.2.length
          else m)
        acc
      = acc ++ (schedule.filter fun p => 0 < p.2.length).map (entry_of first confirmed) := by
  intro schedule
  induction schedule with
  | nil => intro acc _ _; simp
  | cons p rest ih =>
      intro acc hnd hacc
      simp only [List.map_cons, List.nodup_cons] at hnd
      by_cases hp : 0 < p.2.length
      · have hfresh : p.1 ∉ acc.map Prod.fst :=
          hacc p.1 (by simp)
        have hstep :
            addEntry acc p.1 (validator_blocks first confirmed p.2) p.2.length
              = acc ++ [entry_of first confirmed p] := addEntry_of_not_mem hfresh
        have hacc2 : ∀ id ∈ rest.map Prod.fst,
            id ∉ (acc ++ [entry_of first confirmed p]).map Prod.fst := by
          intro id hid
          simp only [List.map_append, List.mem_append]
          rintro (hmem | hmem)
          · exact hacc id (by simp [hid]) hmem
          · simp only [entry_of, List.map_cons, List.map_nil, List.mem_singleton] at hmem
            exact hnd.1 (hmem ▸ hid)
        rw [List.foldl_cons, if_pos hp, hstep, ih _ hnd.2 hacc2]
        simp [List.filter_cons, hp]
      · have hacc2 : ∀ id ∈ rest.map Prod.fst, id ∉ acc.map Prod.fst := fun id hid =>
          hacc id (by simp [hid])
        rw [List.foldl_cons, if_neg hp, ih _ hnd.2 hacc2]
        simp [List.filter_cons, hp]

/-- Closed form of the `blocks_and_slots` map when the schedule's keys are unique (as
they are for the Rust `HashMap`): one entry per validator with a nonzero slot count,
holding its confirmed-block count and its assigned-slot count. -/
lemma blocks_and_slots_eq (first : ℕ) (confirmed : Finset ℕ)
    (schedule : List (ℕ × List ℕ)) (hnd : (schedule.map Prod.fst).Nodup) :
    blocks_and_slots first confirmed schedule
      = (schedule.filter fun p => 0 < p.2.length).map (entry_of first confirmed) := by
  simpa using blocks_and_slots_go first confirmed schedule [] hnd (by simp)

/-- C3: with an entirely empty leader schedule (here: one validator with no assigned
slots, so `total_slots = 0`), `classify_producers` hits the division
`total_blocks * 100 / total_slots` with a zero divisor (src/src/main.rs line 628),
which in Rust panics; it does not return a recoverable classification error.  The
embedding records that panic as the distinguished `panicDivByZero` outcome. -/
theorem C3_classify_producers_zero_slots_panics (config : Config) :
    classify_producers 0 ∅ [(1, [])] config
      = Except.error ClassifyError.panicDivByZero := rfl

/-- The poor set computed by a successful run of `classify_producers`. -/
def poor_set (first : ℕ) (confirmed : Finset ℕ) (schedule : List (ℕ × List ℕ))
    (config : Config) : Finset ℕ :=
  (((blocks_and_slots first confirmed schedule).filter fun e =>
      is_poor config (cluster_average_skip_rate_calc first confirmed schedule) e.2.1 e.2.2).map
    Prod.fst).toFinset

/-- The quality set computed by a successful run of `classify_producers`. -/
def quality_set (first : ℕ) (confirmed : Finset ℕ) (schedule : List (ℕ × List ℕ))
    (config : Config) : Finset ℕ :=
  (((blocks_and_slots first confirmed schedule).filter fun e =>
      !is_poor config (cluster_average_skip_rate_calc first confirmed schedule) e.2.1 e.2.2).map
    Prod.fst).toFinset

lemma classify_producers_eq_ok (first : ℕ) (confirmed : Finset ℕ)
    (schedule : List (ℕ × List ℕ)) (config : Config)
    (hts : total_slots schedule ≠ 0) :
    classify_producers first confirmed schedule config
      = Except.ok
          ⟨quality_set first confirmed schedule config,
            poor_set first confirmed schedule config,
            cluster_average_skip_rate_calc first confirmed schedule,
            decide ((poor_set first confirmed schedule config).card * 100
                / ((quality_set first confirmed schedule config).card
                    + (poor_set first confirmed schedule config).card)
              > config.max_poor_block_producer_percentage)⟩ := by
  simp [classify_producers, hts, poor_set, quality_set]

lemma keys_blocks_and_slots (first : ℕ) (confirmed : Finset ℕ)
    (schedule : List (ℕ × List ℕ)) (hnd : (schedule.map Prod.fst).Nodup) :
    (blocks_and_slots first confirmed schedule).map Prod.fst
      = (schedule.filter fun p => 0 < p.2.length).map Prod.fst := by
  rw [blocks_and_slots_eq _ _ _ hnd, List.map_map]
  exact List.map_congr_left fun p _ => rfl

lemma keys_blocks_and_slots_nodup (first : ℕ) (confirmed : Finset ℕ)
    (schedule : List (ℕ × List ℕ)) (hnd : (schedule.map Prod.fst).Nodup) :
    ((blocks_and_slots first confirmed schedule).map Prod.fst).Nodup := by
  rw [keys_blocks_and_slots _ _ _ hnd]
  exact ((List.filter_sublist schedule).map Prod.fst).nodup hnd

lemma mem_classified_filter_iff (P : ℕ × ℕ × ℕ → Bool) {first : ℕ} {confirmed : Finset ℕ}
    {schedule : List (ℕ × List ℕ)} (hnd : (schedule.map Prod.fst).Nodup)
    {id : ℕ} {slots : List ℕ} (hmem : (id, slots) ∈ schedule) (hne : slots ≠ []) :
    (id ∈ (((blocks_and_slots first confirmed schedule).filter P).map Prod.fst).toFinset ↔
      P (id, validator_blocks first confirmed slots, slots.length) = true) := by
  rw [blocks_and_slots_eq first confirmed schedule hnd]
  simp only [List.mem_toFinset, List.mem_map, List.mem_filter]
  constructor
  · rintro ⟨e, ⟨he, hPe⟩, hfst⟩
    obtain ⟨p, ⟨hps, _⟩, rfl⟩ := he
    have hpe : p = (id, slots) := eq_of_nodup_keys Prod.fst hnd hps hmem hfst
    rw [hpe] at hPe
    exact hPe
  · intro hP
    exact ⟨entry_of first confirmed (id, slots),
      ⟨⟨(id, slots), ⟨hmem, by simpa using List.length_pos.mpr hne⟩, rfl⟩, hP⟩, rfl⟩

lemma not_mem_classified_filter_of_nil (P : ℕ × ℕ × ℕ → Bool) {first : ℕ}
    {confirmed : Finset ℕ} {schedule : List (ℕ × List ℕ)}
    (hnd : (schedule.map Prod.fst).Nodup) {id : ℕ}
    (hmem : (id, ([] : List ℕ)) ∈ schedule) :
    id ∉ (((blocks_and_slots first confirmed schedule).filter P).map Prod.fst).toFinset := by
  rw [blocks_and_slots_eq first confirmed schedule hnd]
  intro h
  simp only [List.mem_toFinset, List.mem_map, List.mem_filter] at h
  obtain ⟨e, ⟨he, _⟩, hfst⟩ := h
  obtain ⟨p, ⟨hps, hlen⟩, rfl⟩ := he
  have hpe : p = (id, []) := eq_of_nodup_keys Prod.fst hnd hps hmem hfst
  rw [hpe] at hlen
  simp at hlen

/-- C4: for every leader schedule with at least one assigned slot, any confirmed-block
set and any configuration, `classify_producers` (src/src/main.rs lines 609-648)
excludes validators with zero assigned slots from both sets, and classifies a
validator with at least one assigned slot as poor exactly when
`max(0, (100 - produced * 100 / assigned) - quality_block_producer_percentage)`
exceeds the skip-rate floor, where the floor is the cluster-average skip rate when
`use_cluster_average_skip_rate` is configured and `0` otherwise.  Natural-number
subtraction is the `max(0, _)` saturating subtraction of the source. -/
theorem C4_classify_producers_skip_rate
    (first : ℕ) (confirmed : Finset ℕ) (schedule : List (ℕ × List ℕ)) (config : Config)
    (hnd : (schedule.map Prod.fst).Nodup) (hts : total_slots schedule ≠ 0)
    (r : ClassifyResult)
    (hr : classify_producers first confirmed schedule config = Except.ok r)
    (validator_identity : ℕ) (relative_slots : List ℕ)
    (hmem : (validator_identity, relative_slots) ∈ schedule) :
    (relative_slots = [] →
        validator_identity ∉ r.poor_block_producers ∧
        validator_identity ∉ r.quality_block_producers) ∧
    (relative_slots ≠ [] →
        (validator_identity ∈ r.poor_block_producers ↔
          (100 - validator_blocks first confirmed relative_slots * 100
              / relative_slots.length)
              - config.quality_block_producer_percentage
            > (if config.use_cluster_average_skip_rate then
                r.cluster_average_skip_rate else 0))) := by
  rw [classify_producers_eq_ok first confirmed schedule config hts] at hr
  obtain rfl : r = _ := (Except.ok.injEq _ _).mp hr.symm
  constructor
  · rintro rfl
    exact ⟨not_mem_classified_filter_of_nil _ hnd hmem,
      not_mem_classified_filter_of_nil _ hnd hmem⟩
  · intro hne
    rw [show (ClassifyResult.mk (quality_set first confirmed schedule config)
        (poor_set first confirmed schedule config)
        (cluster_average_skip_rate_calc first confirmed schedule) _).poor_block_producers
      = poor_set first confirmed schedule config from rfl]
    unfold poor_set
    rw [mem_classified_filter_iff _ hnd hmem hne]
    simp [is_poor]

/-- Shared test configuration mirroring `Config::default_for_test` with
`quality_block_producer_percentage = 10` (src/src/main.rs lines 214-232 and the tests
at lines 999-1089). -/
def test_config : Config :=
  ⟨10, 21600, 20, 100, 10, 100, InfrastructureConcentrationAffects.WarnAll, false, 50⟩

theorem C4_witness :
    2 ∈ (ClassifyResult.mk {1} {2} 50 true).poor_block_producers :=
  ((C4_classify_producers_skip_rate 0 ({0, 1} : Finset ℕ) [(1, [0, 1]), (2, [2, 3])]
      test_config (by decide) (by decide) ⟨{1}, {2}, 50, true⟩ (by decide)
      2 [2, 3] (by decide)).2 (by decide)).mpr (by decide)

/-- C5: whenever `classify_producers` succeeds, the quality and poor sets are disjoint,
their union is exactly the set of identities with at least one assigned slot in the
leader schedule, and their cardinalities sum to the number of such identities
(src/src/main.rs lines 603-648). -/
theorem C5_quality_poor_partition
    (first : ℕ) (confirmed : Finset ℕ) (schedule : List (ℕ × List ℕ)) (config : Config)
    (hnd : (schedule.map Prod.fst).Nodup) (r : ClassifyResult)
    (hr : classify_producers first confirmed schedule config = Except.ok r) :
    Disjoint r.quality_block_producers r.poor_block_producers ∧
    r.quality_block_producers ∪ r.poor_block_producers = ids_with_assigned_slots schedule ∧
    r.quality_block_producers.card + r.poor_block_producers.card
      = (ids_with_assigned_slots schedule).card := by
  by_cases hts : total_slots schedule = 0
  · simp [classify_producers, hts] at hr
  rw [classify_producers_eq_ok first confirmed schedule config hts] at hr
  obtain rfl : r = _ := (Except.ok.injEq _ _).mp hr.symm
  have hkeys := keys_blocks_and_slots_nodup first confirmed schedule hnd
  refine ⟨?_, ?_, ?_⟩
  · rw [Finset.disjoint_left]
    intro id hq hp
    simp only [quality_set, poor_set, List.mem_toFinset, List.mem_map,
      List.mem_filter] at hq hp
    obtain ⟨e1, ⟨he1, hP1⟩, hf1⟩ := hq
    obtain ⟨e2, ⟨he2, hP2⟩, hf2⟩ := hp
    have : e1 = e2 :=
      eq_of_nodup_keys Prod.fst hkeys he1 he2 (by rw [hf1, hf2])
    rw [this, hP2] at hP1
    simp at hP1
  · ext id
    simp only [Finset.mem_union, quality_set, poor_set, List.mem_toFinset, List.mem_map,
      List.mem_filter, ids_with_assigned_slots]
    constructor
    · rintro (⟨e, ⟨he, _⟩, hf⟩ | ⟨e, ⟨he, _⟩, hf⟩) <;>
      · have : id ∈ (blocks_and_slots first confirmed schedule).map Prod.fst :=
          hf ▸ List.mem_map_of_mem Prod.fst he
        rw [keys_blocks_and_slots first confirmed schedule hnd] at this
        obtain ⟨p, hp, hpf⟩ := List.mem_map.mp this
        obtain ⟨hps, hlen⟩ := List.mem_filter.mp hp
        exact ⟨p, ⟨hps, hlen⟩, hpf⟩
    · rintro ⟨p, ⟨hps, hlen⟩, hpf⟩
      have : id ∈ (blocks_and_slots first confirmed schedule).map Prod.fst := by
        rw [keys_blocks_and_slots first confirmed schedule hnd]
        exact hpf ▸ List.mem_map_of_mem Prod.fst (List.mem_filter.mpr ⟨hps, hlen⟩)
      obtain ⟨e, he, hef⟩ := List.mem_map.mp this
      by_cases hPe : is_poor config
          (cluster_average_skip_rate_calc first confirmed schedule) e.2.1 e.2.2 = true
      · exact Or.inr ⟨e, ⟨he, hPe⟩, hef⟩
      · exact Or.inl ⟨e, ⟨he, by simp [hPe]⟩, hef⟩
  · have hnq : ((((blocks_and_slots first confirmed schedule).filter fun e =>
        !is_poor config (cluster_average_skip_rate_calc first confirmed schedule)
          e.2.1 e.2.2).map Prod.fst)).Nodup :=
      ((List.filter_sublist _).map Prod.fst).nodup hkeys
    have hnp : ((((blocks_and_slots first confirmed schedule).filter fun e =>
        is_poor config (cluster_average_skip_rate_calc first confirmed schedule)
          e.2.1 e.2.2).map Prod.fst)).Nodup :=
      ((List.filter_sublist _).map Prod.fst).nodup hkeys
    have hni : ((schedule.filter fun p => 0 < p.2.length).map Prod.fst).Nodup :=
      ((List.filter_sublist _).map Prod.fst).nodup hnd
    have key : ∀ (l : List (ℕ × ℕ × ℕ)),
        (l.filter fun e =>
            !is_poor config (cluster_average_skip_rate_calc first confirmed schedule)
              e.2.1 e.2.2).length
          + (l.filter fun e =>
              is_poor config (cluster_average_skip_rate_calc first confirmed schedule)
                e.2.1 e.2.2).length
        = l.length := by
      intro l
      induction l with
      | nil => rfl
      | cons a t ih =>
          by_cases h : is_poor config
              (cluster_average_skip_rate_calc first confirmed schedule) a.2.1 a.2.2
            = true <;> simp [List.filter_cons, h, ← ih] <;> omega
    show (quality_set first confirmed schedule config).card
        + (poor_set first confirmed schedule config).card = _
    rw [quality_set, poor_set, ids_with_assigned_slots, List.toFinset_card_of_nodup hnq,
      List.toFinset_card_of_nodup hnp, List.toFinset_card_of_nodup hni,
      List.length_map, List.length_map, List.length_map, key, blocks_and_slots_eq
      first confirmed schedule hnd, List.length_map]

theorem C5_witness :
    Disjoint (ClassifyResult.mk {1} {2} 50 true).quality_block_producers
      (ClassifyResult.mk {1} {2} 50 true).poor_block_producers ∧
    (ClassifyResult.mk {1} {2} 50 true).quality_block_producers
        ∪ (ClassifyResult.mk {1} {2} 50 true).poor_block_producers
      = ids_with_assigned_slots [(1, [0, 1]), (2, [2, 3])] ∧
    (ClassifyResult.mk {1} {2} 50 true).quality_block_producers.card
        + (ClassifyResult.mk {1} {2} 50 true).poor_block_producers.card
      = (ids_with_assigned_slots [(1, [0, 1]), (2, [2, 3])]).card :=
  C5_quality_poor_partition 0 ({0, 1} : Finset ℕ) [(1, [0, 1]), (2, [2, 3])]
    test_config (by decide) ⟨{1}, {2}, 50, true⟩ (by decide)

/-- C6: if every assigned slot of every validator is confirmed (each validator's
confirmed-block count equals its assigned-slot count) and the schedule assigns at
least one slot, a successful `classify_producers` run reports an empty poor set and
`too_many_poor_block_producers = false` (src/src/main.rs lines 628-653). -/
theorem C6_full_production_no_poor
    (first : ℕ) (confirmed : Finset ℕ) (schedule : List (ℕ × List ℕ)) (config : Config)
    (hnd : (schedule.map Prod.fst).Nodup) (hts : total_slots schedule ≠ 0)
    (hall : ∀ p ∈ schedule, ∀ rs ∈ p.2, first + rs ∈ confirmed)
    (r : ClassifyResult)
    (hr : classify_producers first confirmed schedule config = Except.ok r) :
    r.poor_block_producers = ∅ ∧ r.too_many_poor_block_producers = false := by
  rw [classify_producers_eq_ok first confirmed schedule config hts] at hr
  obtain rfl : r = _ := (Except.ok.injEq _ _).mp hr.symm
  have hfil : ((blocks_and_slots first confirmed schedule).filter fun e =>
      is_poor config (cluster_average_skip_rate_calc first confirmed schedule)
        e.2.1 e.2.2) = [] := by
    rw [List.filter_eq_nil_iff]
    intro e he
    rw [blocks_and_slots_eq first confirmed schedule hnd] at he
    obtain ⟨p, hp, rfl⟩ := List.mem_map.mp he
    obtain ⟨hps, hlen⟩ := List.mem_filter.mp hp
    have hlen2 : 0 < p.2.length := by simpa using hlen
    have hblocks : validator_blocks first confirmed p.2 = p.2.length := by
      unfold validator_blocks
      rw [List.filter_eq_self.mpr]
      intro rs hrs
      exact decide_eq_true (hall p hps rs hrs)
    simp only [entry_of, is_poor, hblocks]
    rw [Nat.mul_div_cancel_left 100 hlen2]
    simp
  have hpoor : poor_set first confirmed schedule config = ∅ := by
    rw [poor_set, hfil]
    rfl
  refine ⟨hpoor, ?_⟩
  show decide _ = false
  rw [hpoor]
  simp

theorem C6_witness :
    (ClassifyResult.mk {1} ∅ 0 false).poor_block_producers = ∅ ∧
    (ClassifyResult.mk {1} ∅ 0 false).too_many_poor_block_producers = false :=
  C6_full_production_no_poor 0 ({0, 1} : Finset ℕ) [(1, [0, 1])] test_config
    (by decide) (by decide) (by decide) ⟨{1}, ∅, 0, false⟩ (by decide)

lemma validator_blocks_mono (first : ℕ) {c2 c : Finset ℕ} (hsub : c2 ⊆ c)
    (slots : List ℕ) :
    validator_blocks first c2 slots ≤ validator_blocks first c slots := by
  unfold validator_blocks
  exact (List.monotone_filter_right slots fun rs h =>
    decide_eq_true (hsub (of_decide_eq_true h))).length_le

/-- C8: holding the leader schedule fixed, the cluster-average skip rate reported by
`classify_producers` does not decrease when confirmed-block coverage shrinks: a
confirmed set that is a subset of another yields a greater-or-equal
`cluster_average_skip_rate` (src/src/main.rs lines 607-628). -/
theorem C8_cluster_average_skip_rate_monotone
    (first : ℕ) (confirmed confirmed2 : Finset ℕ) (schedule : List (ℕ × List ℕ))
    (config : Config) (hsub : confirmed2 ⊆ confirmed) (r r2 : ClassifyResult)
    (hr : classify_producers first confirmed schedule config = Except.ok r)
    (hr2 : classify_producers first confirmed2 schedule config = Except.ok r2) :
    r.cluster_average_skip_rate ≤ r2.cluster_average_skip_rate := by
  by_cases hts : total_slots schedule = 0
  · simp [classify_producers, hts] at hr
  rw [classify_producers_eq_ok first confirmed schedule config hts] at hr
  rw [classify_producers_eq_ok first confirmed2 schedule config hts] at hr2
  obtain rfl : r = _ := (Except.ok.injEq _ _).mp hr.symm
  obtain rfl : r2 = _ := (Except.ok.injEq _ _).mp hr2.symm
  show cluster_average_skip_rate_calc first confirmed schedule
    ≤ cluster_average_skip_rate_calc first confirmed2 schedule
  unfold cluster_average_skip_rate_calc
  have htb : total_blocks first confirmed2 schedule ≤ total_blocks first confirmed schedule := by
    unfold total_blocks
    exact List.sum_le_sum fun p _ => validator_blocks_mono first hsub p.2
  exact Nat.sub_le_sub_left
    (Nat.div_le_div_right (Nat.mul_le_mul_right 100 htb)) 100

theorem C8_witness : (50 : ℕ) ≤ 100 :=
  C8_cluster_average_skip_rate_monotone 0 ({0, 1} : Finset ℕ) ∅
    [(1, [0, 1]), (2, [2, 3])] test_config (by decide)
    ⟨{1}, {2}, 50, true⟩ ⟨∅, {1, 2}, 100, true⟩ (by decide) (by decide)

/-- Configuration with the cluster-average skip-rate floor enabled, used to refute the
universally-quantified form of the all-poor property. -/
def C2_config : Config :=
  ⟨10, 21600, 20, 100, 10, 100, InfrastructureConcentrationAffects.WarnAll, true, 50⟩

/-- C2 counterexample: with `use_cluster_average_skip_rate = true` and no confirmed
blocks, the cluster-average skip rate is 100, so the floor equals 100 and the test
`skip_rate.saturating_sub(quality_block_producer_percentage) > skip_rate_floor`
(src/src/main.rs line 636) is false for every validator: a validator with one
assigned slot and no confirmed block lands in the quality set, not the poor set,
refuting the claim for this configuration. -/
theorem C2_counterexample :
    classify_producers 0 ∅ [(1, [0])] C2_config
        = Except.ok ⟨{1}, ∅, 100, false⟩ ∧
    1 ∉ (ClassifyResult.mk {1} ∅ 100 false).poor_block_producers := by decide

lemma validator_blocks_empty (first : ℕ) (slots : List ℕ) :
    validator_blocks first ∅ slots = 0 := by
  unfold validator_blocks
  simp

/-- C2 amended: when the cluster-average skip-rate floor is disabled and
`quality_block_producer_percentage < 100`, an empty confirmed-block set over a
schedule with at least one assigned slot makes every validator with at least one
assigned slot poor, the quality set empty, and
`too_many_poor_block_producers = true` exactly when the resulting 100% poor
percentage exceeds `max_poor_block_producer_percentage`
(src/src/main.rs lines 628-653). -/
theorem C2_all_poor_amended
    (first : ℕ) (schedule : List (ℕ × List ℕ)) (config : Config)
    (hnd : (schedule.map Prod.fst).Nodup) (hts : total_slots schedule ≠ 0)
    (hflag : config.use_cluster_average_skip_rate = false)
    (hq : config.quality_block_producer_percentage < 100)
    (r : ClassifyResult)
    (hr : classify_producers first ∅ schedule config = Except.ok r) :
    r.poor_block_producers = ids_with_assigned_slots schedule ∧
    r.quality_block_producers = ∅ ∧
    (r.too_many_poor_block_producers = true ↔
      100 > config.max_poor_block_producer_percentage) := by
  rw [classify_producers_eq_ok first ∅ schedule config hts] at hr
  obtain rfl : r = _ := (Except.ok.injEq _ _).mp hr.symm
  have hallpoor : ∀ e ∈ blocks_and_slots first ∅ schedule,
      is_poor config (cluster_average_skip_rate_calc first ∅ schedule) e.2.1 e.2.2
        = true := by
    intro e he
    rw [blocks_and_slots_eq _ _ _ hnd] at he
    obtain ⟨p, hp, rfl⟩ := List.mem_map.mp he
    simp only [entry_of, is_poor, validator_blocks_empty, hflag]
    simp only [Nat.zero_mul, Nat.zero_div, Nat.sub_zero, Bool.false_eq_true, if_false]
    rw [decide_eq_true_eq]
    omega
  have hpfil : ((blocks_and_slots first ∅ schedule).filter fun e =>
      is_poor config (cluster_average_skip_rate_calc first ∅ schedule) e.2.1 e.2.2)
      = blocks_and_slots first ∅ schedule :=
    List.filter_eq_self.mpr hallpoor
  have hqfil : ((blocks_and_slots first ∅ schedule).filter fun e =>
      !is_poor config (cluster_average_skip_rate_calc first ∅ schedule) e.2.1 e.2.2)
      = [] := by
    rw [List.filter_eq_nil_iff]
    intro e he
    simp [hallpoor e he]
  have hpoor : poor_set first ∅ schedule config = ids_with_assigned_slots schedule := by
    rw [poor_set, hpfil, keys_blocks_and_slots first ∅ schedule hnd,
      ids_with_assigned_slots]
  have hqual : quality_set first ∅ schedule config = ∅ := by
    rw [quality_set, hqfil]
    rfl
  refine ⟨hpoor, hqual, ?_⟩
  have hpos : 0 < (poor_set first ∅ schedule config).card := by
    rw [hpoor]
    have hex : ∃ p ∈ schedule, 0 < p.2.length := by
      by_contra hno
      push_neg at hno
      apply hts
      unfold total_slots
      apply List.sum_eq_zero
      intro x hx
      obtain ⟨p, hp, rfl⟩ := List.mem_map.mp hx
      exact Nat.le_antisymm (hno p hp) (Nat.zero_le _)
    obtain ⟨p, hp, hlen⟩ := hex
    apply Finset.card_pos.mpr
    refine ⟨p.1, ?_⟩
    rw [ids_with_assigned_slots]
    simp only [List.mem_toFinset, List.mem_map]
    exact ⟨p, List.mem_filter.mpr ⟨hp, by simpa using hlen⟩, rfl⟩
  show decide _ = true ↔ _
  rw [hqual, Finset.card_empty, Nat.zero_add,
    Nat.mul_div_cancel_left 100 hpos, decide_eq_true_eq]

theorem C2_witness :
    (ClassifyResult.mk ∅ {1} 100 true).poor_block_producers
        = ids_with_assigned_slots [(1, [0])] ∧
    (ClassifyResult.mk ∅ {1} 100 true).quality_block_producers = ∅ ∧
    ((ClassifyResult.mk ∅ {1} 100 true).too_many_poor_block_producers = true ↔
      100 > test_config.max_poor_block_producer_percentage) :=
  C2_all_poor_amended 0 [(1, [0])] test_config (by decide) (by decide) (by decide)
    (by decide) ⟨∅, {1}, 100, true⟩ (by decide)

/-- Modelled from the spec: `DesiredStakeState` (the `ValidatorStakeState` enum of the
`generic_stake_pool` module, which is not under src/; src/src/main.rs constructs its
`None`, `Baseline` and `Bonus` variants at lines 896-953): enumerated
None < Baseline < Bonus. -/
inductive ValidatorStakeState
  | None
  | Baseline
  | Bonus
deriving DecidableEq

/-- Modelled from the spec: the `ValidatorStake` record of the `generic_stake_pool`
module (not under src/), constructed by `main` at src/src/main.rs lines 960-964 with
an identity, a desired stake state and a memo. -/
structure ValidatorStake where
  identity : ℕ
  stake_state : ValidatorStakeState
  memo : Memo
deriving DecidableEq

/-- Epoch metadata read from the ledger (`epoch_info` in `main`): the current epoch and
the current absolute slot. -/
structure EpochInfo where
  epoch : ℕ
  absolute_slot : ℕ
deriving DecidableEq

/-- The `too_many_old_validators` computation of `main` (src/src/main.rs lines
836-839): the count of old-version nodes is compared against
`(poor.len() + quality.len()) * max_old_release_version_percentage / 100`. -/
def too_many_old_validators_calc (cluster_nodes_with_old_version : Finset ℕ)
    (quality_block_producers poor_block_producers : Finset ℕ) (config : Config) : Bool :=
  cluster_nodes_with_old_version.card >
    (poor_block_producers.card + quality_block_producers.card)
      * config.max_old_release_version_percentage / 100

/-- Over-representation test as the specification words it, for comparison with
`too_many_old_validators_calc`: the stale validators exceed
`max_old_release_version_percentage` percent of the enrolled validators. -/
def spec_too_many_old_validators (cluster_nodes_with_old_version enrolled : Finset ℕ)
    (config : Config) : Bool :=
  cluster_nodes_with_old_version.card * 100
    > enrolled.card * config.max_old_release_version_percentage

/-- Run-level notification strings pushed by `main` before the per-validator loop
(src/src/main.rs lines 822-846), modelled as tagged values. -/
inductive RunNotification
  | badClusterSkipRate (cluster_average_skip_rate threshold : ℕ)
  | tooManyPoorBlockProducers (max_percentage last_epoch : ℕ)
  | tooManyOldValidators (max_percentage : ℕ)
deriving DecidableEq

/-- The notifications accumulated by `main` at src/src/main.rs lines 822-846: a
cluster-skip-rate alert, a too-many-poor-producers alert, and a
too-many-old-validators alert, each pushed when its condition holds. -/
def run_notifications (cluster_average_skip_rate last_epoch : ℕ)
    (too_many_poor_block_producers too_many_old_validators : Bool) (config : Config) :
    List RunNotification :=
  (if cluster_average_skip_rate > config.bad_cluster_average_skip_rate then
    [RunNotification.badClusterSkipRate cluster_average_skip_rate
      config.bad_cluster_average_skip_rate]
  else []) ++
  (if too_many_poor_block_producers = true then
    [RunNotification.tooManyPoorBlockProducers config.max_poor_block_producer_percentage
      last_epoch]
  else []) ++
  (if too_many_old_validators = true then
    [RunNotification.tooManyOldValidators config.max_old_release_version_percentage]
  else [])

/-- The trailing if-chain of the per-validator `operation` in `main` (src/src/main.rs
lines 898-953), i.e. every rule after the infrastructure-concentration rule:
commission ceiling, stale software, delinquency beyond the grace distance,
delinquency within 256 slots (no decision), quality bonus, poor baseline (or no
decision when poor producers are over-represented), and the current-validator
baseline.  Natural-number subtraction is the source's `saturating_sub`. -/
def post_infra_operation (config : Config) (epoch_info : EpochInfo) (last_epoch : ℕ)
    (cluster_nodes_with_old_version : Finset ℕ) (too_many_old_validators : Bool)
    (quality_block_producers poor_block_producers : Finset ℕ)
    (too_many_poor_block_producers : Bool)
    (node_pubkey commission root_slot : ℕ) : Option (ValidatorStakeState × Memo) :=
  if commission > config.max_commission then
    some (ValidatorStakeState.None, Memo.commissionTooHigh node_pubkey commission)
  else if too_many_old_validators = false ∧ node_pubkey ∈ cluster_nodes_with_old_version then
    some (ValidatorStakeState.None, Memo.oldRelease node_pubkey)
  else if root_slot < epoch_info.absolute_slot - config.delinquent_grace_slot_distance then
    some (ValidatorStakeState.None, Memo.delinquent node_pubkey)
  else if root_slot < epoch_info.absolute_slot - 256 then
    none
  else if node_pubkey ∈ quality_block_producers then
    some (ValidatorStakeState.Bonus, Memo.qualityProducer node_pubkey last_epoch)
  else if node_pubkey ∈ poor_block_producers then
    if too_many_poor_block_producers = true then none
    else some (ValidatorStakeState.Baseline, Memo.poorProducer node_pubkey last_epoch)
  else
    some (ValidatorStakeState.Baseline, Memo.currentValidator node_pubkey)

/-- The per-validator body of the decision loop in `main` (src/src/main.rs lines
879-953): the infrastructure-concentration map lookup is resolved through the
configured policy; a `Destake` resolution yields the `None` stake state with the
destake memo, a `Warn` resolution pushes the warning memo onto the run's
notifications (returned as the second component) and leaves the decision to the
remaining rules of `post_infra_operation`. -/
def evaluate_validator (config : Config) (epoch_info : EpochInfo) (last_epoch : ℕ)
    (infrastructure_concentration : List (ℕ × ℚ))
    (cluster_nodes_with_old_version : Finset ℕ) (too_many_old_validators : Bool)
    (quality_block_producers poor_block_producers : Finset ℕ)
    (too_many_poor_block_producers : Bool)
    (node_pubkey commission root_slot : ℕ) :
    Option (ValidatorStakeState × Memo) × List Memo :=
  let affect := (infrastructure_concentration.lookup node_pubkey).map
    (fun concentration =>
      config.infrastructure_concentration_affects.memo node_pubkey concentration config)
  let infrastructure_concentration_destake_memo : Option Memo :=
    match affect with
    | some (InfrastructureConcentrationAffectKind.Destake m) => some m
    | _ => none
  let warns : List Memo :=
    match affect with
    | some (InfrastructureConcentrationAffectKind.Warn m) => [m]
    | _ => []
  let operation : Option (ValidatorStakeState × Memo) :=
    match infrastructure_concentration_destake_memo with
    | some memo => some (ValidatorStakeState.None, memo)
    | none =>
        post_infra_operation config epoch_info last_epoch cluster_nodes_with_old_version
          too_many_old_validators quality_block_producers poor_block_producers
          too_many_poor_block_producers node_pubkey commission root_slot
  (operation, warns)

/-- Whether the infrastructure-concentration policy resolves to a destake verdict for
one validator: the validator appears in the over-concentration map and the configured
policy is `DestakeAll`, or `DestakeListed` with the validator in the list. -/
def resolves_to_destake (config : Config)
    (infrastructure_concentration : List (ℕ × ℚ)) (node_pubkey : ℕ) : Bool :=
  match (infrastructure_concentration.lookup node_pubkey).map
      (fun concentration =>
        config.infrastructure_concentration_affects.memo node_pubkey concentration
          config) with
  | some (InfrastructureConcentrationAffectKind.Destake _) => true
  | _ => false

/-- The stake state carried by an optional stake decision. -/
def state_of (operation : Option (ValidatorStakeState × Memo)) :
    Option ValidatorStakeState :=
  operation.map Prod.fst

lemma evaluate_validator_fst_of_destake {config : Config} {epoch_info : EpochInfo}
    {last_epoch : ℕ} {infrastructure_concentration : List (ℕ × ℚ)}
    {cluster_nodes_with_old_version : Finset ℕ} {too_many_old_validators : Bool}
    {quality_block_producers poor_block_producers : Finset ℕ}
    {too_many_poor_block_producers : Bool} {node_pubkey commission root_slot : ℕ}
    (h : resolves_to_destake config infrastructure_concentration node_pubkey = true) :
    state_of (evaluate_validator config epoch_info last_epoch
        infrastructure_concentration cluster_nodes_with_old_version
        too_many_old_validators quality_block_producers poor_block_producers
        too_many_poor_block_producers node_pubkey commission root_slot).1
      = some ValidatorStakeState.None := by
  unfold resolves_to_destake at h
  unfold evaluate_validator
  rcases hl : (infrastructure_concentration.lookup node_pubkey).map
      (fun concentration =>
        config.infrastructure_concentration_affects.memo node_pubkey concentration
          config) with _ | k
  · rw [hl] at h
    exact Bool.noConfusion h
  · cases k with
    | Destake m => rfl
    | Warn m =>
        rw [hl] at h
        exact Bool.noConfusion h

lemma evaluate_validator_fst_of_not_destake {config : Config} {epoch_info : EpochInfo}
    {last_epoch : ℕ} {infrastructure_concentration : List (ℕ × ℚ)}
    {cluster_nodes_with_old_version : Finset ℕ} {too_many_old_validators : Bool}
    {quality_block_producers poor_block_producers : Finset ℕ}
    {too_many_poor_block_producers : Bool} {node_pubkey commission root_slot : ℕ}
    (h : resolves_to_destake config infrastructure_concentration node_pubkey = false) :
    (evaluate_validator config epoch_info last_epoch infrastructure_concentration
        cluster_nodes_with_old_version too_many_old_validators quality_block_producers
        poor_block_producers too_many_poor_block_producers node_pubkey commission
        root_slot).1
      = post_infra_operation config epoch_info last_epoch
          cluster_nodes_with_old_version too_many_old_validators
          quality_block_producers poor_block_producers too_many_poor_block_producers
          node_pubkey commission root_slot := by
  unfold resolves_to_destake at h
  unfold evaluate_validator
  rcases hl : (infrastructure_concentration.lookup node_pubkey).map
      (fun concentration =>
        config.infrastructure_concentration_affects.memo node_pubkey concentration
          config) with _ | k
  · rfl
  · cases k with
    | Destake m =>
        rw [hl] at h
        exact Bool.noConfusion h
    | Warn m => rfl

/-- C1: for every enrolled, observed validator the decision engine (src/src/main.rs
lines 896-966) evaluates its rules in strict precedence with short-circuit at the
first applicable rule: an infrastructure-concentration destake verdict gives state
None; otherwise commission above `max_commission` gives None; otherwise stale
software, when staleness is not over-represented, gives None; otherwise a root slot
older than the current slot minus the delinquency grace distance gives None;
otherwise a root slot older than the current slot minus 256 gives no decision;
otherwise quality-set membership gives Bonus; otherwise poor-set membership gives
Baseline when poor producers are not over-represented and no decision when they are;
otherwise the state is Baseline.  In particular (last conjunct), a validator over the
commission ceiling and in the quality set resolves to None. -/
theorem C1_decision_engine_precedence (config : Config) (epoch_info : EpochInfo)
    (last_epoch : ℕ) (infrastructure_concentration : List (ℕ × ℚ))
    (cluster_nodes_with_old_version : Finset ℕ) (too_many_old_validators : Bool)
    (quality_block_producers poor_block_producers : Finset ℕ)
    (too_many_poor_block_producers : Bool) (node_pubkey commission root_slot : ℕ) :
    let operation := (evaluate_validator config epoch_info last_epoch
      infrastructure_concentration cluster_nodes_with_old_version
      too_many_old_validators quality_block_producers poor_block_producers
      too_many_poor_block_producers node_pubkey commission root_slot).1
    let destake := resolves_to_destake config infrastructure_concentration node_pubkey
    (destake = true → state_of operation = some ValidatorStakeState.None) ∧
    (destake = false → commission > config.max_commission →
      state_of operation = some ValidatorStakeState.None) ∧
    (destake = false → ¬commission > config.max_commission →
      too_many_old_validators = false → node_pubkey ∈ cluster_nodes_with_old_version →
      state_of operation = some ValidatorStakeState.None) ∧
    (destake = false → ¬commission > config.max_commission →
      ¬(too_many_old_validators = false ∧
          node_pubkey ∈ cluster_nodes_with_old_version) →
      root_slot < epoch_info.absolute_slot - config.delinquent_grace_slot_distance →
      state_of operation = some ValidatorStakeState.None) ∧
    (destake = false → ¬commission > config.max_commission →
      ¬(too_many_old_validators = false ∧
          node_pubkey ∈ cluster_nodes_with_old_version) →
      ¬root_slot < epoch_info.absolute_slot - config.delinquent_grace_slot_distance →
      root_slot < epoch_info.absolute_slot - 256 →
      operation = none) ∧
    (destake = false → ¬commission > config.max_commission →
      ¬(too_many_old_validators = false ∧
          node_pubkey ∈ cluster_nodes_with_old_version) →
      ¬root_slot < epoch_info.absolute_slot - config.delinquent_grace_slot_distance →
      ¬root_slot < epoch_info.absolute_slot - 256 →
      node_pubkey ∈ quality_block_producers →
      state_of operation = some ValidatorStakeState.Bonus) ∧
    (destake = false → ¬commission > config.max_commission →
      ¬(too_many_old_validators = false ∧
          node_pubkey ∈ cluster_nodes_with_old_version) →
      ¬root_slot < epoch_info.absolute_slot - config.delinquent_grace_slot_distance →
      ¬root_slot < epoch_info.absolute_slot - 256 →
      node_pubkey ∉ quality_block_producers → node_pubkey ∈ poor_block_producers →
      too_many_poor_block_producers = false →
      state_of operation = some ValidatorStakeState.Baseline) ∧
    (destake = false → ¬commission > config.max_commission →
      ¬(too_many_old_validators = false ∧
          node_pubkey ∈ cluster_nodes_with_old_version) →
      ¬root_slot < epoch_info.absolute_slot - config.delinquent_grace_slot_distance →
      ¬root_slot < epoch_info.absolute_slot - 256 →
      node_pubkey ∉ quality_block_producers → node_pubkey ∈ poor_block_producers →
      too_many_poor_block_producers = true →
      operation = none) ∧
    (destake = false → ¬commission > config.max_commission →
      ¬(too_many_old_validators = false ∧
          node_pubkey ∈ cluster_nodes_with_old_version) →
      ¬root_slot < epoch_info.absolute_slot - config.delinquent_grace_slot_distance →
      ¬root_slot < epoch_info.absolute_slot - 256 →
      node_pubkey ∉ quality_block_producers → node_pubkey ∉ poor_block_producers →
      state_of operation = some ValidatorStakeState.Baseline) ∧
    (commission > config.max_commission → node_pubkey ∈ quality_block_producers →
      state_of operation = some ValidatorStakeState.None) := by
  refine ⟨?_, ?_, ?_, ?_, ?_, ?_, ?_, ?_, ?_, ?_⟩
  · exact fun hD => evaluate_validator_fst_of_destake hD
  · intro hD h2
    rw [evaluate_validator_fst_of_not_destake hD]
    simp [post_infra_operation, state_of, h2]
  · intro hD h2 h3a h3b
    rw [evaluate_validator_fst_of_not_destake hD]
    simp [post_infra_operation, state_of, h2, h3a, h3b]
  · intro hD h2 h3 h4
    rw [evaluate_validator_fst_of_not_destake hD]
    simp [post_infra_operation, state_of, h2, h3, h4]
  · intro hD h2 h3 h4 h5
    rw [evaluate_validator_fst_of_not_destake hD]
    simp [post_infra_operation, state_of, h2, h3, h4, h5]
  · intro hD h2 h3 h4 h5 h6
    rw [evaluate_validator_fst_of_not_destake hD]
    simp [post_infra_operation, state_of, h2, h3, h4, h5, h6]
  · intro hD h2 h3 h4 h5 h6 h7 h8
    rw [evaluate_validator_fst_of_not_destake hD]
    simp [post_infra_operation, state_of, h2, h3, h4, h5, h6, h7, h8]
  · intro hD h2 h3 h4 h5 h6 h7 h8
    rw [evaluate_validator_fst_of_not_destake hD]
    simp [post_infra_operation, state_of, h2, h3, h4, h5, h6, h7, h8]
  · intro hD h2 h3 h4 h5 h6 h7
    rw [evaluate_validator_fst_of_not_destake hD]
    simp [post_infra_operation, state_of, h2, h3, h4, h5, h6, h7]
  · intro hcomm hq
    rcases Bool.eq_false_or_eq_true
        (resolves_to_destake config infrastructure_concentration node_pubkey) with
      hD | hD
    · exact evaluate_validator_fst_of_destake hD
    · rw [evaluate_validator_fst_of_not_destake hD]
      simp [post_infra_operation, state_of, hcomm]

theorem C1_witness :
    state_of (evaluate_validator test_config ⟨10, 1000⟩ 9 [] ∅ false {7} ∅ false
        7 101 1000).1
      = some ValidatorStakeState.None :=
  (C1_decision_engine_precedence test_config ⟨10, 1000⟩ 9 [] ∅ false {7} ∅ false
    7 101 1000).2.2.2.2.2.2.2.2.2 (by decide) (by decide)

/-- Configuration with `max_old_release_version_percentage = 50`, used for the
stale-software over-representation claims. -/
def C7_config : Config :=
  ⟨10, 21600, 20, 100, 50, 100, InfrastructureConcentrationAffects.WarnAll, false, 50⟩

/-- C7 counterexample: the over-representation test of `main` (src/src/main.rs lines
836-839) divides by the classified-producer count `poor.len() + quality.len()`, not by
the number of enrolled validators.  With 4 enrolled validators, 2 stale ones and a
ceiling of 50%, the stale validators do not exceed 50% of the enrolled validators
(`spec_too_many_old_validators = false`), so the claim requires stale validator 1 to
be destaked with the stale-software memo; but only one validator was classified last
epoch, so the code computes `2 > 1 * 50 / 100`, considers staleness over-represented,
skips the stale-software rule, and awards validator 1 a Bonus instead. -/
theorem C7_counterexample :
    spec_too_many_old_validators {1, 2} {1, 2, 3, 4} C7_config = false ∧
    (1 : ℕ) ∈ ({1, 2} : Finset ℕ) ∧
    too_many_old_validators_calc {1, 2} {1} ∅ C7_config = true ∧
    (evaluate_validator C7_config ⟨10, 1000⟩ 9 [] {1, 2}
        (too_many_old_validators_calc {1, 2} {1} ∅ C7_config) {1} ∅ false 1 0
        1000).1
      = some (ValidatorStakeState.Bonus, Memo.qualityProducer 1 9) := by decide

/-- C7 amended: a stale-software validator (one in `cluster_nodes_with_old_version`,
with no infrastructure destake and an acceptable commission) is destaked with the
stale-software memo if and only if staleness is not over-represented, where
over-representation compares the stale count against
`max_old_release_version_percentage` percent of the classified block producers of the
previous epoch (`poor.len() + quality.len()`, src/src/main.rs lines 836-839 and
906-912) — not of the enrolled validators; when it is over-represented, no stake
decision carries the stale-software memo and the run's notifications record the
too-many-old-validators alert (lines 841-846). -/
theorem C7_stale_destake_iff_not_overrepresented
    (config : Config) (epoch_info : EpochInfo) (last_epoch : ℕ)
    (infrastructure_concentration : List (ℕ × ℚ))
    (cluster_nodes_with_old_version : Finset ℕ)
    (quality_block_producers poor_block_producers : Finset ℕ)
    (too_many_poor_block_producers : Bool) (node_pubkey commission root_slot : ℕ)
    (cluster_average_skip_rate : ℕ)
    (hD : resolves_to_destake config infrastructure_concentration node_pubkey = false)
    (hcomm : ¬commission > config.max_commission)
    (hold : node_pubkey ∈ cluster_nodes_with_old_version) :
    (((evaluate_validator config epoch_info last_epoch infrastructure_concentration
        cluster_nodes_with_old_version
        (too_many_old_validators_calc cluster_nodes_with_old_version
          quality_block_producers poor_block_producers config)
        quality_block_producers poor_block_producers too_many_poor_block_producers
        node_pubkey commission root_slot).1
      = some (ValidatorStakeState.None, Memo.oldRelease node_pubkey)) ↔
      too_many_old_validators_calc cluster_nodes_with_old_version
        quality_block_producers poor_block_producers config = false) ∧
    (too_many_old_validators_calc cluster_nodes_with_old_version
        quality_block_producers poor_block_producers config = true →
      (∀ st m,
        (evaluate_validator config epoch_info last_epoch infrastructure_concentration
            cluster_nodes_with_old_version
            (too_many_old_validators_calc cluster_nodes_with_old_version
              quality_block_producers poor_block_producers config)
            quality_block_producers poor_block_producers too_many_poor_block_producers
            node_pubkey commission root_slot).1
          = some (st, m) → m ≠ Memo.oldRelease node_pubkey) ∧
      RunNotification.tooManyOldValidators config.max_old_release_version_percentage
        ∈ run_notifications cluster_average_skip_rate last_epoch
            too_many_poor_block_producers
            (too_many_old_validators_calc cluster_nodes_with_old_version
              quality_block_producers poor_block_producers config) config) := by
  rw [evaluate_validator_fst_of_not_destake hD]
  rcases Bool.eq_false_or_eq_true
      (too_many_old_validators_calc cluster_nodes_with_old_version
        quality_block_producers poor_block_producers config) with htmo | htmo
  · rw [htmo]
    constructor
    · constructor
      · intro h
        exfalso
        unfold post_infra_operation at h
        rw [if_neg hcomm, if_neg (by simp)] at h
        split_ifs at h <;>
          first
            | exact Option.noConfusion h
            | (rw [Option.some.injEq, Prod.mk.injEq] at h
               exact Memo.noConfusion h.2)
      · intro h
        exact Bool.noConfusion h
    · intro _
      refine ⟨?_, ?_⟩
      · intro st m h
        unfold post_infra_operation at h
        rw [if_neg hcomm, if_neg (by simp)] at h
        split_ifs at h <;>
          first
            | exact Option.noConfusion h
            | (rw [Option.some.injEq, Prod.mk.injEq] at h
               rw [← h.2]
               simp)
      · simp [run_notifications]
  · rw [htmo]
    refine ⟨⟨fun _ => rfl, fun _ => ?_⟩, fun h => Bool.noConfusion h⟩
    unfold post_infra_operation
    rw [if_neg hcomm, if_pos ⟨rfl, hold⟩]

theorem C7_witness :
    (evaluate_validator C7_config ⟨10, 1000⟩ 9 [] {1}
        (too_many_old_validators_calc {1} {1, 2} ∅ C7_config) {1, 2} ∅ false 1 0
        1000).1
      = some (ValidatorStakeState.None, Memo.oldRelease 1) :=
  ((C7_stale_destake_iff_not_overrepresented C7_config ⟨10, 1000⟩ 9 [] {1} {1, 2} ∅
      false 1 0 1000 42 (by decide) (by decide) (by decide)).1).mpr (by decide)

/-- C10: when the infrastructure-concentration policy resolves to a warning for an
over-concentrated validator (`WarnAll`, or `DestakeListed` with the identity absent
from the list, src/src/main.rs lines 75-108), the warning memo is appended to the
run's notifications and the validator's stake decision equals the one produced by the
remaining rules alone (an empty over-concentration map), so the validator can still
receive Bonus or Baseline in the same run (lines 879-953). -/
theorem C10_warn_keeps_remaining_rules
    (config : Config) (epoch_info : EpochInfo) (last_epoch : ℕ)
    (infrastructure_concentration : List (ℕ × ℚ))
    (cluster_nodes_with_old_version : Finset ℕ) (too_many_old_validators : Bool)
    (quality_block_producers poor_block_producers : Finset ℕ)
    (too_many_poor_block_producers : Bool) (node_pubkey commission root_slot : ℕ)
    (concentration : ℚ) (w : Memo)
    (hl : infrastructure_concentration.lookup node_pubkey = some concentration)
    (hw : config.infrastructure_concentration_affects.memo node_pubkey concentration
        config = InfrastructureConcentrationAffectKind.Warn w) :
    evaluate_validator config epoch_info last_epoch infrastructure_concentration
        cluster_nodes_with_old_version too_many_old_validators
        quality_block_producers poor_block_producers too_many_poor_block_producers
        node_pubkey commission root_slot
      = ((evaluate_validator config epoch_info last_epoch []
          cluster_nodes_with_old_version too_many_old_validators
          quality_block_producers poor_block_producers too_many_poor_block_producers
          node_pubkey commission root_slot).1, [w]) := by
  unfold evaluate_validator
  rw [hl]
  simp [hw, List.lookup]

theorem C10_witness :
    evaluate_validator test_config ⟨10, 1000⟩ 9 [(5, 90)] ∅ false {5} ∅ false 5 0 1000
      = ((evaluate_validator test_config ⟨10, 1000⟩ 9 [] ∅ false {5} ∅ false
          5 0 1000).1, [Memo.infraWarn 5 90]) :=
  C10_warn_keeps_remaining_rules test_config ⟨10, 1000⟩ 9 [(5, 90)] ∅ false {5} ∅
    false 5 0 1000 90 (Memo.infraWarn 5 90) (by decide) (by decide)

/-- One entry of the vote-account snapshot (`RpcVoteAccountInfo`): the fields read by
`main` (src/src/main.rs lines 735-759 and 866-872). -/
structure VoteAccountInfo where
  node_pubkey : ℕ
  vote_pubkey : ℕ
  commission : ℕ
  root_slot : ℕ
  last_vote : ℕ
deriving DecidableEq

/-- One step of the `latest_vote_account_info` accumulation (src/src/main.rs lines
743-753): `entry(node_pubkey).or_insert(vai)` followed by replacing the entry when
`entry.last_vote < vai.last_vote`, on a `HashMap` modelled as a list keyed by
`node_pubkey`. -/
def upsert_latest (m : List VoteAccountInfo) (vai : VoteAccountInfo) :
    List VoteAccountInfo :=
  match m with
  | [] => [vai]
  | e :: rest =>
      if e.node_pubkey = vai.node_pubkey then
        (if e.last_vote < vai.last_vote then vai else e) :: rest
      else e :: upsert_latest rest vai

/-- The `vote_account_info` deduplication of `main` (src/src/main.rs lines 735-759):
fold the concatenation of the current and delinquent vote-account lists into a map
with one entry per node identity, keeping the account that voted most recently. -/
def latest_vote_account_info (current delinquent : List VoteAccountInfo) :
    List VoteAccountInfo :=
  (current ++ delinquent).foldl upsert_latest []

/-- The per-validator decision loop of `main` (src/src/main.rs lines 865-966): for
each observed vote account whose identity is enrolled, evaluate the decision rules;
a decision is appended to `desired_validator_stake` (first component) and any
infrastructure warning memos are collected into the notifications (second
component). -/
def build_desired_validator_stake (config : Config) (epoch_info : EpochInfo)
    (last_epoch : ℕ) (infrastructure_concentration : List (ℕ × ℚ))
    (cluster_nodes_with_old_version : Finset ℕ) (too_many_old_validators : Bool)
    (quality_block_producers poor_block_producers : Finset ℕ)
    (too_many_poor_block_producers : Bool) (enrolled : Finset ℕ) :
    List VoteAccountInfo → List ValidatorStake × List Memo
  | [] => ([], [])
  | vai :: rest =>
      let tail := build_desired_validator_stake config epoch_info last_epoch
        infrastructure_concentration cluster_nodes_with_old_version
        too_many_old_validators quality_block_producers poor_block_producers
        too_many_poor_block_producers enrolled rest
      if vai.node_pubkey ∈ enrolled then
        let res := evaluate_validator config epoch_info last_epoch
          infrastructure_concentration cluster_nodes_with_old_version
          too_many_old_validators quality_block_producers poor_block_producers
          too_many_poor_block_producers vai.node_pubkey vai.commission vai.root_slot
        match res.1 with
        | some (stake_state, memo) =>
            (⟨vai.node_pubkey, stake_state, memo⟩ :: tail.1, res.2 ++ tail.2)
        | none => (tail.1, res.2 ++ tail.2)
      else tail

lemma upsert_latest_mem {m : List VoteAccountInfo} {x e : VoteAccountInfo}
    (h : e ∈ upsert_latest m x) : e ∈ m ∨ e = x := by
  induction m with
  | nil =>
      simp only [upsert_latest, List.mem_singleton] at h
      exact Or.inr h
  | cons a t ih =>
      by_cases h1 : a.node_pubkey = x.node_pubkey
      · simp only [upsert_latest, if_pos h1, List.mem_cons] at h
        rcases h with he | het
        · by_cases h2 : a.last_vote < x.last_vote
          · rw [if_pos h2] at he
            exact Or.inr he
          · rw [if_neg h2] at he
            exact Or.inl (he ▸ List.mem_cons_self a t)
        · exact Or.inl (List.mem_cons_of_mem a het)
      · simp only [upsert_latest, if_neg h1, List.mem_cons] at h
        rcases h with he | het
        · exact Or.inl (he ▸ List.mem_cons_self a t)
        · rcases ih het with hm | hx
          · exact Or.inl (List.mem_cons_of_mem a hm)
          · exact Or.inr hx

lemma upsert_latest_keys (m : List VoteAccountInfo) (x : VoteAccountInfo) :
    (upsert_latest m x).map VoteAccountInfo.node_pubkey
      = if x.node_pubkey ∈ m.map VoteAccountInfo.node_pubkey
        then m.map VoteAccountInfo.node_pubkey
        else m.map VoteAccountInfo.node_pubkey ++ [x.node_pubkey] := by
  induction m with
  | nil => simp [upsert_latest]
  | cons a t ih =>
      by_cases h1 : a.node_pubkey = x.node_pubkey
      · by_cases h2 : a.last_vote < x.last_vote <;>
          simp [upsert_latest, h1, h2]
      · have h1' : ¬x.node_pubkey = a.node_pubkey := fun hc => h1 hc.symm
        by_cases h3 : x.node_pubkey ∈ t.map VoteAccountInfo.node_pubkey <;>
          simp [upsert_latest, h1, h1', h3, ih]

lemma upsert_latest_keys_nodup {m : List VoteAccountInfo} {x : VoteAccountInfo}
    (h : (m.map VoteAccountInfo.node_pubkey).Nodup) :
    ((upsert_latest m x).map VoteAccountInfo.node_pubkey).Nodup := by
  rw [upsert_latest_keys]
  by_cases h1 : x.node_pubkey ∈ m.map VoteAccountInfo.node_pubkey
  · simpa [h1] using h
  · rw [if_neg h1, List.nodup_append]
    refine ⟨h, List.nodup_singleton _, ?_⟩
    intro a ha hb
    rw [List.mem_singleton] at hb
    exact h1 (hb ▸ ha)

lemma upsert_latest_covers_new (m : List VoteAccountInfo) (x : VoteAccountInfo) :
    ∃ e ∈ upsert_latest m x,
      e.node_pubkey = x.node_pubkey ∧ x.last_vote ≤ e.last_vote := by
  induction m with
  | nil => exact ⟨x, by simp [upsert_latest], rfl, le_refl _⟩
  | cons a t ih =>
      by_cases h1 : a.node_pubkey = x.node_pubkey
      · by_cases h2 : a.last_vote < x.last_vote
        · exact ⟨x, by simp [upsert_latest, h1, h2], rfl, le_refl _⟩
        · exact ⟨a, by simp [upsert_latest, h1, h2], h1, Nat.le_of_not_lt h2⟩
      · obtain ⟨e, he, hpk, hlv⟩ := ih
        refine ⟨e, ?_, hpk, hlv⟩
        rw [show upsert_latest (a :: t) x = a :: upsert_latest t x from by
          simp [upsert_latest, h1]]
        exact List.mem_cons_of_mem a he

lemma upsert_latest_covers_old {m : List VoteAccountInfo} (x : VoteAccountInfo)
    {e : VoteAccountInfo} (he : e ∈ m) :
    ∃ e2 ∈ upsert_latest m x,
      e2.node_pubkey = e.node_pubkey ∧ e.last_vote ≤ e2.last_vote := by
  induction m with
  | nil => cases he
  | cons a t ih =>
      by_cases h1 : a.node_pubkey = x.node_pubkey
      · rcases List.mem_cons.mp he with rfl | het
        · by_cases h2 : e.last_vote < x.last_vote
          · exact ⟨x, by simp [upsert_latest, h1, h2], h1.symm, Nat.le_of_lt h2⟩
          · exact ⟨e, by simp [upsert_latest, h1, h2], rfl, le_refl _⟩
        · refine ⟨e, ?_, rfl, le_refl _⟩
          have : upsert_latest (a :: t) x
              = (if a.last_vote < x.last_vote then x else a) :: t := by
            simp [upsert_latest, h1]
          rw [this]
          exact List.mem_cons_of_mem _ het
      · rcases List.mem_cons.mp he with rfl | het
        · refine ⟨e, ?_, rfl, le_refl _⟩
          rw [show upsert_latest (e :: t) x = e :: upsert_latest t x from by
            simp [upsert_latest, h1]]
          exact List.mem_cons_self e _
        · obtain ⟨e2, he2, hpk, hlv⟩ := ih het
          refine ⟨e2, ?_, hpk, hlv⟩
          rw [show upsert_latest (a :: t) x = a :: upsert_latest t x from by
            simp [upsert_latest, h1]]
          exact List.mem_cons_of_mem a he2

lemma latest_fold_invariant (l : List VoteAccountInfo) :
    ∀ (p m : List VoteAccountInfo),
      (m.map VoteAccountInfo.node_pubkey).Nodup →
      (∀ e ∈ m, e ∈ p) →
      (∀ y ∈ p, ∃ e ∈ m, e.node_pubkey = y.node_pubkey ∧ y.last_vote ≤ e.last_vote) →
      ((l.foldl upsert_latest m).map VoteAccountInfo.node_pubkey).Nodup ∧
      (∀ e ∈ l.foldl upsert_latest m, e ∈ p ++ l) ∧
      (∀ y ∈ p ++ l, ∃ e ∈ l.foldl upsert_latest m,
        e.node_pubkey = y.node_pubkey ∧ y.last_vote ≤ e.last_vote) := by
  induction l with
  | nil =>
      intro p m h1 h2 h3
      simpa using ⟨h1, h2, h3⟩
  | cons x t ih =>
      intro p m h1 h2 h3
      have h1' := @upsert_latest_keys_nodup m x h1
      have h2' : ∀ e ∈ upsert_latest m x, e ∈ p ++ [x] := by
        intro e he
        rcases upsert_latest_mem he with hm | rfl
        · exact List.mem_append_left _ (h2 e hm)
        · exact List.mem_append_right _ (List.mem_singleton_self e)
      have h3' : ∀ y ∈ p ++ [x], ∃ e ∈ upsert_latest m x,
          e.node_pubkey = y.node_pubkey ∧ y.last_vote ≤ e.last_vote := by
        intro y hy
        rcases List.mem_append.mp hy with hyp | hyx
        · obtain ⟨e, he, hpk, hlv⟩ := h3 y hyp
          obtain ⟨e2, he2, hpk2, hlv2⟩ := upsert_latest_covers_old x he
          exact ⟨e2, he2, by rw [hpk2, hpk], le_trans hlv hlv2⟩
        · obtain rfl : y = x := List.mem_singleton.mp hyx
          exact upsert_latest_covers_new m y
      have hres := ih (p ++ [x]) (upsert_latest m x) h1' h2' h3'
      simpa using hres

lemma build_desired_validator_stake_ids_sublist (config : Config)
    (epoch_info : EpochInfo) (last_epoch : ℕ)
    (infrastructure_concentration : List (ℕ × ℚ))
    (cluster_nodes_with_old_version : Finset ℕ) (too_many_old_validators : Bool)
    (quality_block_producers poor_block_producers : Finset ℕ)
    (too_many_poor_block_producers : Bool) (enrolled : Finset ℕ)
    (infos : List VoteAccountInfo) :
    ((build_desired_validator_stake config epoch_info last_epoch
        infrastructure_concentration cluster_nodes_with_old_version
        too_many_old_validators quality_block_producers poor_block_producers
        too_many_poor_block_producers enrolled infos).1.map
      ValidatorStake.identity).Sublist
      (infos.map VoteAccountInfo.node_pubkey) := by
  induction infos with
  | nil => simp [build_desired_validator_stake]
  | cons vai rest ih =>
      by_cases hen : vai.node_pubkey ∈ enrolled
      · rw [build_desired_validator_stake, if_pos hen]
        rcases hres : (evaluate_validator config epoch_info last_epoch
            infrastructure_concentration cluster_nodes_with_old_version
            too_many_old_validators quality_block_producers poor_block_producers
            too_many_poor_block_producers vai.node_pubkey vai.commission
            vai.root_slot).1 with _ | ⟨st, memo⟩
        · simp only [hres, List.map_cons]
          exact ih.cons _
        · simp only [hres, List.map_cons]
          exact ih.cons₂ _
      · rw [build_desired_validator_stake, if_neg hen]
        simp only [List.map_cons]
        exact ih.cons _

/-- C9: deduplication of the vote-account snapshot (src/src/main.rs lines 735-759)
keeps exactly one entry per node identity — the entry with the greatest `last_vote`
among the current and delinquent lists — and consequently the decision loop emits at
most one `ValidatorStake` per identity per run. -/
theorem C9_latest_vote_account_dedup (current delinquent : List VoteAccountInfo) :
    ((latest_vote_account_info current delinquent).map
      VoteAccountInfo.node_pubkey).Nodup ∧
    (∀ e ∈ latest_vote_account_info current delinquent, e ∈ current ++ delinquent) ∧
    (∀ y ∈ current ++ delinquent, ∃ e ∈ latest_vote_account_info current delinquent,
      e.node_pubkey = y.node_pubkey) ∧
    (∀ e ∈ latest_vote_account_info current delinquent,
      ∀ y ∈ current ++ delinquent, y.node_pubkey = e.node_pubkey →
        y.last_vote ≤ e.last_vote) ∧
    (∀ (config : Config) (epoch_info : EpochInfo) (last_epoch : ℕ)
        (infrastructure_concentration : List (ℕ × ℚ))
        (cluster_nodes_with_old_version : Finset ℕ)
        (too_many_old_validators : Bool)
        (quality_block_producers poor_block_producers : Finset ℕ)
        (too_many_poor_block_producers : Bool) (enrolled : Finset ℕ),
      ((build_desired_validator_stake config epoch_info last_epoch
          infrastructure_concentration cluster_nodes_with_old_version
          too_many_old_validators quality_block_producers poor_block_producers
          too_many_poor_block_producers enrolled
          (latest_vote_account_info current delinquent)).1.map
        ValidatorStake.identity).Nodup) := by
  have hinv := latest_fold_invariant (current ++ delinquent) [] []
    (by simp) (by simp) (by simp)
  rw [show ([] : List VoteAccountInfo) ++ (current ++ delinquent)
    = current ++ delinquent from by simp] at hinv
  obtain ⟨hnd, hmem, hcov⟩ := hinv
  refine ⟨hnd, hmem, ?_, ?_, ?_⟩
  · intro y hy
    obtain ⟨e, he, hpk, _⟩ := hcov y hy
    exact ⟨e, he, hpk⟩
  · intro e he y hy hpk
    obtain ⟨e2, he2, hpk2, hlv2⟩ := hcov y hy
    have : e2 = e :=
      eq_of_nodup_keys VoteAccountInfo.node_pubkey hnd he2 he (by rw [hpk2, hpk])
    exact this ▸ hlv2
  · intro config epoch_info last_epoch infrastructure_concentration
      cluster_nodes_with_old_version too_many_old_validators quality_block_producers
      poor_block_producers too_many_poor_block_producers enrolled
    exact (build_desired_validator_stake_ids_sublist config epoch_info last_epoch
      infrastructure_concentration cluster_nodes_with_old_version
      too_many_old_validators quality_block_producers poor_block_producers
      too_many_poor_block_producers enrolled
      (latest_vote_account_info current delinquent)).nodup hnd

theorem C9_witness :
    ((latest_vote_account_info
        [⟨1, 10, 0, 5, 50⟩, ⟨1, 11, 0, 6, 60⟩] [⟨2, 12, 0, 7, 70⟩]).map
      VoteAccountInfo.node_pubkey).Nodup :=
  (C9_latest_vote_account_dedup
    [⟨1, 10, 0, 5, 50⟩, ⟨1, 11, 0, 6, 60⟩] [⟨2, 12, 0, 7, 70⟩]).1

end StakeOMatic
